import Mathlib

/-!
Verification of `examples/hooks/llm-feedback-demo.py` from mark3labs/mcphost.

The script reads one JSON document from standard input, branches on the
`hook_event_name` field, inspects string fields with substring checks, and
prints one JSON object.  We embed the parsed input document as an association
list of string keys to JSON values, and `main` as a pure function from the
input document to `Option` of the output dictionary (`none` models an
unhandled Python exception, which occurs exactly when the `prompt` field is
present but not a string, since `prompt.lower()` then raises).

Python library primitives used by the script (`str()`, `repr`, `.lower()`,
the `in` substring operator, `dict.get` with a default, dictionary key
assignment, and `json.dumps`) are modelled below at the fidelity the script
exercises: JSON numbers are modelled as integers (the script never reads a
number), and `.lower()` is ASCII case folding as in Lean's `Char.toLower`
(all substrings searched for are ASCII).
-/

namespace LlmFeedbackDemo

/-- A JSON value as produced by Python's `json.load`: `None`, `bool`, number
(modelled as an integer), string, list, or string-keyed dictionary in
insertion order. -/
inductive JValue : Type where
  | null : JValue
  | bool : Bool → JValue
  | num : Int → JValue
  | str : String → JValue
  | arr : List JValue → JValue
  | obj : List (String × JValue) → JValue

/-- First-match lookup in an association list (Python dictionary read). -/
def lookupKey : List (String × JValue) → String → Option JValue
  | [], _ => none
  | (k', v) :: rest, k => if k' = k then some v else lookupKey rest k

/-- Python `d.get(k, dflt)`: the stored value when the key is present,
otherwise the default. -/
def pyGet (d : List (String × JValue)) (k : String) (dflt : JValue) : JValue :=
  (lookupKey d k).getD dflt

/-- Python dictionary assignment `d[k] = v`: overwrite in place when the key
exists (keeping its original position), otherwise append at the end. -/
def setKey : List (String × JValue) → String → JValue → List (String × JValue)
  | [], k, v => [(k, v)]
  | (k', v') :: rest, k, v =>
    if k' = k then (k', v) :: rest else (k', v') :: setKey rest k v

/-- Whether the first list is an initial segment of the second. -/
def startsWithChars : List Char → List Char → Bool
  | [], _ => true
  | _ :: _, [] => false
  | a :: as, b :: bs => a == b && startsWithChars as bs

/-- Whether `needle` occurs as a contiguous run somewhere in `hay`. -/
def subSearch (needle : List Char) : List Char → Bool
  | [] => startsWithChars needle []
  | c :: rest => startsWithChars needle (c :: rest) || subSearch needle rest

/-- Python's `needle in hay` substring test on strings. -/
def strContains (hay needle : String) : Bool :=
  subSearch needle.data hay.data

/-- Python `s.lower()` (ASCII case folding; every substring the script
searches for is ASCII). -/
def pyLower (s : String) : String :=
  String.mk (s.data.map Char.toLower)

/-- Lowercase hexadecimal digit for a value below 16. -/
def hexDigit (n : Nat) : Char :=
  if n < 10 then Char.ofNat (48 + n) else Char.ofNat (87 + n)

/-- Two lowercase hexadecimal digits of a byte value. -/
def hex2 (n : Nat) : String :=
  String.mk [hexDigit (n / 16 % 16), hexDigit (n % 16)]

/-- Four lowercase hexadecimal digits of a 16-bit value. -/
def hex4 (n : Nat) : String :=
  String.mk [hexDigit (n / 4096 % 16), hexDigit (n / 256 % 16),
             hexDigit (n / 16 % 16), hexDigit (n % 16)]

/-- One character of Python `repr` of a string, escaped relative to the
chosen quote character. -/
def pyReprEscChar (quote : Char) (c : Char) : String :=
  if c = Char.ofNat 92 then "\\\\"
  else if c = quote then String.mk [Char.ofNat 92, quote]
  else if c = Char.ofNat 10 then "\\n"
  else if c = Char.ofNat 13 then "\\r"
  else if c = Char.ofNat 9 then "\\t"
  else if c.toNat < 32 || c.toNat == 127 then "\\x" ++ hex2 c.toNat
  else String.mk [c]

/-- Python `repr` of a string: single-quoted, except double-quoted when the
string contains a single quote but no double quote. -/
def pyReprStr (s : String) : String :=
  let quote :=
    if s.data.contains (Char.ofNat 39) && !(s.data.contains (Char.ofNat 34))
    then Char.ofNat 34 else Char.ofNat 39
  String.mk [quote] ++ String.join (s.data.map (pyReprEscChar quote)) ++
    String.mk [quote]

mutual

/-- Python `repr` of a JSON value (`None`/`True`/`False`, decimal integers,
quoted strings, bracketed lists, braced dictionaries with `, ` and `: `
separators). -/
def pyRepr : JValue → String
  | JValue.null => "None"
  | JValue.bool true => "True"
  | JValue.bool false => "False"
  | JValue.num n => toString n
  | JValue.str s => pyReprStr s
  | JValue.arr xs => "[" ++ pyReprElems xs ++ "]"
  | JValue.obj kvs => "\x7b" ++ pyReprPairs kvs ++ "\x7d"

/-- Comma-separated `repr` of list elements. -/
def pyReprElems : List JValue → String
  | [] => ""
  | [v] => pyRepr v
  | v :: w :: rest => pyRepr v ++ ", " ++ pyReprElems (w :: rest)

/-- Comma-separated `repr` of dictionary entries. -/
def pyReprPairs : List (String × JValue) → String
  | [] => ""
  | [(k, v)] => pyReprStr k ++ ": " ++ pyRepr v
  | (k, v) :: w :: rest =>
    pyReprStr k ++ ": " ++ pyRepr v ++ ", " ++ pyReprPairs (w :: rest)

end

/-- Python `str()` of a JSON value: a string is returned verbatim, any other
value renders as its `repr`. -/
def pyStr : JValue → String
  | JValue.str s => s
  | v => pyRepr v

/-- One character of a JSON string literal under `json.dumps` defaults
(`ensure_ascii` on: printable ASCII kept, everything else escaped). -/
def jsonEscChar (c : Char) : String :=
  if c = Char.ofNat 34 then "\\\""
  else if c = Char.ofNat 92 then "\\\\"
  else if c = Char.ofNat 10 then "\\n"
  else if c = Char.ofNat 13 then "\\r"
  else if c = Char.ofNat 9 then "\\t"
  else if c.toNat == 8 then "\\b"
  else if c.toNat == 12 then "\\f"
  else if c.toNat < 32 then "\\u" ++ hex4 c.toNat
  else if c.toNat < 127 then String.mk [c]
  else if c.toNat < 65536 then "\\u" ++ hex4 c.toNat
  else "\\u" ++ hex4 (55296 + (c.toNat - 65536) / 1024) ++
       "\\u" ++ hex4 (56320 + (c.toNat - 65536) % 1024)

/-- A JSON string literal: double quotes around the escaped characters. -/
def jsonQuote (s : String) : String :=
  "\"" ++ String.join (s.data.map jsonEscChar) ++ "\""

mutual

/-- Python `json.dumps` with default separators (`, ` between items,
`: ` between a key and its value). -/
def jsonDumps : JValue → String
  | JValue.null => "null"
  | JValue.bool true => "true"
  | JValue.bool false => "false"
  | JValue.num n => toString n
  | JValue.str s => jsonQuote s
  | JValue.arr xs => "[" ++ jsonDumpsElems xs ++ "]"
  | JValue.obj kvs => "\x7b" ++ jsonDumpsPairs kvs ++ "\x7d"

/-- Comma-separated serialization of array elements. -/
def jsonDumpsElems : List JValue → String
  | [] => ""
  | [v] => jsonDumps v
  | v :: w :: rest => jsonDumps v ++ ", " ++ jsonDumpsElems (w :: rest)

/-- Comma-separated serialization of object entries. -/
def jsonDumpsPairs : List (String × JValue) → String
  | [] => ""
  | [(k, v)] => jsonQuote k ++ ": " ++ jsonDumps v
  | (k, v) :: w :: rest =>
    jsonQuote k ++ ": " ++ jsonDumps v ++ ", " ++ jsonDumpsPairs (w :: rest)

end

/-- Python `v == s` where `s` is a string literal: true exactly when `v` is a
string with the same contents (comparison of a string with any other type is
`False` in Python, never an error). -/
def isStrEq (v : JValue) (s : String) : Bool :=
  match v with
  | JValue.str t => t == s
  | _ => false

/-- The body of `main` in `llm-feedback-demo.py`, from parsed input document
to the output dictionary that the script serializes and prints.  `none`
models the one unhandled exception path: in the `UserPromptSubmit` branch the
script calls `prompt.lower()`, which raises when the `prompt` field is
present with a non-string value. -/
def main (input_data : List (String × JValue)) : Option JValue :=
  let hook_event := pyGet input_data "hook_event_name" (JValue.str "")
  if isStrEq hook_event "PostToolUse" then
    let tool_name := pyGet input_data "tool_name" (JValue.str "")
    let tool_response := pyGet input_data "tool_response" (JValue.obj [])
    let output : List (String × JValue) := []
    let output :=
      if strContains (pyLower (pyStr tool_response)) "error" then
        setKey (setKey output "feedback"
            (JValue.str ("The " ++ pyStr tool_name ++
              " tool encountered an error. Consider checking inputs or using an alternative approach.")))
          "context" (JValue.str "Tool execution failed")
      else output
    let output :=
      if strContains (pyLower (pyStr tool_response)) "password" then
        setKey (setKey (setKey output "modifyOutput"
              (JValue.str (jsonDumps (JValue.obj
                [("result", JValue.str "Output sanitized for security")]))))
            "suppressOutput" (JValue.bool true))
          "feedback" (JValue.str "Sensitive data was detected and removed from output")
      else output
    some (JValue.obj output)
  else if isStrEq hook_event "UserPromptSubmit" then
    match pyGet input_data "prompt" (JValue.str "") with
    | JValue.str prompt =>
      let output : List (String × JValue) := []
      let output :=
        if strContains (pyLower prompt) "help" || strContains prompt "?" then
          setKey (setKey output "context"
              (JValue.str "User is asking for help, provide detailed explanations"))
            "systemPrompt" (JValue.str "Be extra helpful and provide examples")
        else output
      some (JValue.obj output)
    | _ => none
  else some (JValue.obj [])

/-- The single line the script prints: `json.dumps` of the output dictionary
(absent when the invocation raises instead of printing). -/
def emittedLine (input_data : List (String × JValue)) : Option String :=
  (main input_data).map jsonDumps

/-- Ambient process state the script could in principle consult but never
does: environment variables, a clock, a random seed, and a file system.  The
script's only input channel is the document parsed from standard input. -/
structure ProcessEnv : Type where
  environ : List (String × String)
  clockNanos : Nat
  randomSeed : Nat
  fileSystem : List (String × String)

/-- One invocation of the hook process in ambient state `env` with parsed
standard input `input_data`.  The script never reads `env`: its definition
passes only the document to `main`, mirroring the source, whose statements
touch nothing beyond `sys.stdin` and `print`. -/
def runHookProcess (_env : ProcessEnv) (input_data : List (String × JValue)) :
    Option JValue :=
  main input_data

/-- Helper: a successful Python string comparison pins down the value. -/
theorem isStrEq_eq (v : JValue) (s : String) (h : isStrEq v s = true) :
    v = JValue.str s := by
  cases v <;> simp_all [isStrEq]

/-- C1: for a PostToolUse input whose tool response rendering contains both
"error" and "password" (case-insensitively), the output has feedback equal
to the sanitization message (the sanitization write overwrites the
error-branch feedback, last-write-wins), context equal to "Tool execution
failed" (set by the error check and never overwritten), and suppressOutput
equal to true. -/
theorem postToolUse_error_and_password_last_write_wins
    (d : List (String × JValue))
    (hev : pyGet d "hook_event_name" (JValue.str "") = JValue.str "PostToolUse")
    (herr : strContains (pyLower (pyStr (pyGet d "tool_response" (JValue.obj [])))) "error" = true)
    (hpwd : strContains (pyLower (pyStr (pyGet d "tool_response" (JValue.obj [])))) "password" = true) :
    ∃ l, main d = some (JValue.obj l) ∧
      lookupKey l "feedback" =
        some (JValue.str "Sensitive data was detected and removed from output") ∧
      lookupKey l "context" = some (JValue.str "Tool execution failed") ∧
      lookupKey l "suppressOutput" = some (JValue.bool true) := by
  refine ⟨[("feedback", JValue.str "Sensitive data was detected and removed from output"),
          ("context", JValue.str "Tool execution failed"),
          ("modifyOutput", JValue.str (jsonDumps (JValue.obj
            [("result", JValue.str "Output sanitized for security")]))),
          ("suppressOutput", JValue.bool true)], ?_, rfl, rfl, rfl⟩
  simp [main, hev, herr, hpwd, setKey, isStrEq]

/-- Witness for C1 at a concrete input. -/
theorem postToolUse_error_and_password_witness :
    ∃ l, main [("hook_event_name", JValue.str "PostToolUse"),
               ("tool_response", JValue.str "Error: password leaked")] =
        some (JValue.obj l) ∧
      lookupKey l "feedback" =
        some (JValue.str "Sensitive data was detected and removed from output") ∧
      lookupKey l "context" = some (JValue.str "Tool execution failed") ∧
      lookupKey l "suppressOutput" = some (JValue.bool true) :=
  postToolUse_error_and_password_last_write_wins
    [("hook_event_name", JValue.str "PostToolUse"),
     ("tool_response", JValue.str "Error: password leaked")]
    (by rfl) (by rfl) (by rfl)

/-- C2: whenever the script emits an output object, its keys are among the
five recognized output keys feedback, context, modifyOutput, suppressOutput
and systemPrompt; no other key is ever emitted. -/
theorem output_keys_among_recognized
    (d : List (String × JValue)) (l : List (String × JValue))
    (h : main d = some (JValue.obj l)) :
    ∀ p ∈ l, p.1 ∈
      (["feedback", "context", "modifyOutput", "suppressOutput", "systemPrompt"] :
        List String) := by
  simp only [main] at h
  repeat' split at h
  all_goals try exact Option.noConfusion h
  all_goals
    simp only [setKey, Option.some.injEq, JValue.obj.injEq, reduceIte] at h
    subst h
    simp

/-- Witness for C2 at a concrete input and a concrete emitted entry. -/
theorem output_keys_among_recognized_witness :
    (("context", JValue.str "Tool execution failed") :
        String × JValue).1 ∈
      (["feedback", "context", "modifyOutput", "suppressOutput", "systemPrompt"] :
        List String) :=
  output_keys_among_recognized
    [("hook_event_name", JValue.str "PostToolUse"),
     ("tool_name", JValue.str "Read"),
     ("tool_response", JValue.str "Error: file not found")]
    [("feedback", JValue.str "The Read tool encountered an error. Consider checking inputs or using an alternative approach."),
     ("context", JValue.str "Tool execution failed")]
    (by rfl)
    ("context", JValue.str "Tool execution failed")
    (by simp)

/-- C3: for a PostToolUse input with tool name "Read" and tool response
"Error: file not found" (contains "error", no "password"), the output is
exactly the two-key object with the templated feedback and the fixed
context. -/
theorem postToolUse_read_error_exact_output :
    main [("hook_event_name", JValue.str "PostToolUse"),
          ("tool_name", JValue.str "Read"),
          ("tool_response", JValue.str "Error: file not found")] =
      some (JValue.obj
        [("feedback", JValue.str "The Read tool encountered an error. Consider checking inputs or using an alternative approach."),
         ("context", JValue.str "Tool execution failed")]) := by
  rfl

/-- C4: for a PostToolUse input whose tool response rendering contains
"password" but not "error" (case-insensitively), the output has
suppressOutput true, the fixed sanitization feedback, modifyOutput equal to
the JSON encoding of the replacement object, and no context key. -/
theorem postToolUse_password_only_sanitizes
    (d : List (String × JValue))
    (hev : pyGet d "hook_event_name" (JValue.str "") = JValue.str "PostToolUse")
    (herr : strContains (pyLower (pyStr (pyGet d "tool_response" (JValue.obj [])))) "error" = false)
    (hpwd : strContains (pyLower (pyStr (pyGet d "tool_response" (JValue.obj [])))) "password" = true) :
    ∃ l, main d = some (JValue.obj l) ∧
      lookupKey l "suppressOutput" = some (JValue.bool true) ∧
      lookupKey l "feedback" =
        some (JValue.str "Sensitive data was detected and removed from output") ∧
      lookupKey l "modifyOutput" =
        some (JValue.str (jsonDumps (JValue.obj
          [("result", JValue.str "Output sanitized for security")]))) ∧
      lookupKey l "context" = none := by
  refine ⟨[("modifyOutput", JValue.str (jsonDumps (JValue.obj
            [("result", JValue.str "Output sanitized for security")]))),
          ("suppressOutput", JValue.bool true),
          ("feedback", JValue.str "Sensitive data was detected and removed from output")],
        ?_, rfl, rfl, rfl, rfl⟩
  simp [main, hev, herr, hpwd, setKey, isStrEq]

/-- Witness for C4 at a concrete input. -/
theorem postToolUse_password_only_witness :
    ∃ l, main [("hook_event_name", JValue.str "PostToolUse"),
               ("tool_response", JValue.str "password123")] =
        some (JValue.obj l) ∧
      lookupKey l "suppressOutput" = some (JValue.bool true) ∧
      lookupKey l "feedback" =
        some (JValue.str "Sensitive data was detected and removed from output") ∧
      lookupKey l "modifyOutput" =
        some (JValue.str (jsonDumps (JValue.obj
          [("result", JValue.str "Output sanitized for security")]))) ∧
      lookupKey l "context" = none :=
  postToolUse_password_only_sanitizes
    [("hook_event_name", JValue.str "PostToolUse"),
     ("tool_response", JValue.str "password123")]
    (by rfl) (by rfl) (by rfl)

/-- C5: when the hook event name field is absent (so the default empty
string is read) or holds any string other than "PostToolUse" and
"UserPromptSubmit", the output is the empty object. -/
theorem unrecognized_event_empty_output
    (d : List (String × JValue)) (s : String)
    (hs : pyGet d "hook_event_name" (JValue.str "") = JValue.str s)
    (h1 : s ≠ "PostToolUse") (h2 : s ≠ "UserPromptSubmit") :
    main d = some (JValue.obj []) := by
  simp [main, hs, isStrEq, h1, h2]

/-- Witness for C5 at a concrete input. -/
theorem unrecognized_event_empty_output_witness :
    main [("hook_event_name", JValue.str "SessionStart")] =
      some (JValue.obj []) :=
  unrecognized_event_empty_output
    [("hook_event_name", JValue.str "SessionStart")] "SessionStart"
    (by rfl) (by decide) (by decide)

/-- C6: for a UserPromptSubmit input with any string prompt, if the
lowercased prompt contains "help" or the raw prompt contains "?", the
output is exactly the context and systemPrompt pair; if the prompt contains
neither, the output is the empty object. -/
theorem userPromptSubmit_help_detection
    (d : List (String × JValue)) (p : String)
    (hev : pyGet d "hook_event_name" (JValue.str "") = JValue.str "UserPromptSubmit")
    (hp : pyGet d "prompt" (JValue.str "") = JValue.str p) :
    ((strContains (pyLower p) "help" = true ∨ strContains p "?" = true) →
      main d = some (JValue.obj
        [("context", JValue.str "User is asking for help, provide detailed explanations"),
         ("systemPrompt", JValue.str "Be extra helpful and provide examples")])) ∧
    (strContains (pyLower p) "help" = false → strContains p "?" = false →
      main d = some (JValue.obj [])) := by
  constructor
  · intro hc
    rcases hc with h | h <;> simp [main, hev, hp, isStrEq, setKey, h]
  · intro h1 h2
    simp [main, hev, hp, isStrEq, setKey, h1, h2]

/-- Witness for C6 at the two concrete prompts named by the specification. -/
theorem userPromptSubmit_help_detection_witness :
    main [("hook_event_name", JValue.str "UserPromptSubmit"),
          ("prompt", JValue.str "can you help me?")] =
      some (JValue.obj
        [("context", JValue.str "User is asking for help, provide detailed explanations"),
         ("systemPrompt", JValue.str "Be extra helpful and provide examples")]) ∧
    main [("hook_event_name", JValue.str "UserPromptSubmit"),
          ("prompt", JValue.str "do the thing")] =
      some (JValue.obj []) :=
  ⟨(userPromptSubmit_help_detection
      [("hook_event_name", JValue.str "UserPromptSubmit"),
       ("prompt", JValue.str "can you help me?")]
      "can you help me?" (by rfl) (by rfl)).1 (Or.inl (by rfl)),
   (userPromptSubmit_help_detection
      [("hook_event_name", JValue.str "UserPromptSubmit"),
       ("prompt", JValue.str "do the thing")]
      "do the thing" (by rfl) (by rfl)).2 (by rfl) (by rfl)⟩

/-- C7: absent input fields are not errors.  With the tool name field
absent, a PostToolUse error response still succeeds and the feedback
message has the empty string substituted for the tool name; likewise an
absent tool response reads as the empty mapping and an absent prompt reads
as the empty string. -/
theorem absent_fields_masked_by_defaults :
    (∀ d : List (String × JValue),
      lookupKey d "hook_event_name" = some (JValue.str "PostToolUse") →
      lookupKey d "tool_name" = none →
      strContains (pyLower (pyStr (pyGet d "tool_response" (JValue.obj [])))) "error" = true →
      strContains (pyLower (pyStr (pyGet d "tool_response" (JValue.obj [])))) "password" = false →
      ∃ l, main d = some (JValue.obj l) ∧
        lookupKey l "feedback" =
          some (JValue.str "The  tool encountered an error. Consider checking inputs or using an alternative approach.")) ∧
    (∀ d : List (String × JValue), lookupKey d "tool_response" = none →
      pyGet d "tool_response" (JValue.obj []) = JValue.obj []) ∧
    (∀ d : List (String × JValue), lookupKey d "prompt" = none →
      pyGet d "prompt" (JValue.str "") = JValue.str "") := by
  refine ⟨?_, ?_, ?_⟩
  · intro d hev htn herr hpwd
    have hev' : pyGet d "hook_event_name" (JValue.str "") = JValue.str "PostToolUse" := by
      simp [pyGet, hev]
    have htn' : pyGet d "tool_name" (JValue.str "") = JValue.str "" := by
      simp [pyGet, htn]
    refine ⟨[("feedback", JValue.str "The  tool encountered an error. Consider checking inputs or using an alternative approach."),
            ("context", JValue.str "Tool execution failed")], ?_, rfl⟩
    simp only [main, hev', htn', herr, hpwd, isStrEq, beq_self_eq_true, if_true,
      reduceIte, setKey]
    rfl
  · intro d h
    simp [pyGet, h]
  · intro d h
    simp [pyGet, h]

/-- Witness for C7 at concrete inputs. -/
theorem absent_fields_masked_by_defaults_witness :
    (∃ l, main [("hook_event_name", JValue.str "PostToolUse"),
                ("tool_response", JValue.str "error")] =
        some (JValue.obj l) ∧
      lookupKey l "feedback" =
        some (JValue.str "The  tool encountered an error. Consider checking inputs or using an alternative approach.")) ∧
    pyGet [] "tool_response" (JValue.obj []) = JValue.obj [] ∧
    pyGet [] "prompt" (JValue.str "") = JValue.str "" :=
  ⟨absent_fields_masked_by_defaults.1
      [("hook_event_name", JValue.str "PostToolUse"),
       ("tool_response", JValue.str "error")]
      (by rfl) (by rfl) (by rfl) (by rfl),
   absent_fields_masked_by_defaults.2.1 [] (by rfl),
   absent_fields_masked_by_defaults.2.2 [] (by rfl)⟩

/-- C8: in every emitted output, the suppressOutput key is present exactly
when the modifyOutput key is, and when present they hold the fixed values
true and the JSON-encoded sanitization replacement object. -/
theorem sanitize_keys_coupled
    (d : List (String × JValue)) (l : List (String × JValue))
    (h : main d = some (JValue.obj l)) :
    ((lookupKey l "suppressOutput").isSome = (lookupKey l "modifyOutput").isSome) ∧
    (∀ v, lookupKey l "suppressOutput" = some v → v = JValue.bool true) ∧
    (∀ v, lookupKey l "modifyOutput" = some v →
      v = JValue.str (jsonDumps (JValue.obj
        [("result", JValue.str "Output sanitized for security")]))) := by
  simp only [main] at h
  repeat' split at h
  all_goals try exact Option.noConfusion h
  all_goals
    simp only [setKey, Option.some.injEq, JValue.obj.injEq, reduceIte] at h
    subst h
    simp [lookupKey]

/-- Witness for C8 at a concrete input. -/
theorem sanitize_keys_coupled_witness :
    ((lookupKey [("modifyOutput", JValue.str (jsonDumps (JValue.obj
            [("result", JValue.str "Output sanitized for security")]))),
         ("suppressOutput", JValue.bool true),
         ("feedback", JValue.str "Sensitive data was detected and removed from output")]
        "suppressOutput").isSome =
      (lookupKey [("modifyOutput", JValue.str (jsonDumps (JValue.obj
            [("result", JValue.str "Output sanitized for security")]))),
         ("suppressOutput", JValue.bool true),
         ("feedback", JValue.str "Sensitive data was detected and removed from output")]
        "modifyOutput").isSome) ∧
    (∀ v, lookupKey [("modifyOutput", JValue.str (jsonDumps (JValue.obj
            [("result", JValue.str "Output sanitized for security")]))),
         ("suppressOutput", JValue.bool true),
         ("feedback", JValue.str "Sensitive data was detected and removed from output")]
        "suppressOutput" = some v → v = JValue.bool true) ∧
    (∀ v, lookupKey [("modifyOutput", JValue.str (jsonDumps (JValue.obj
            [("result", JValue.str "Output sanitized for security")]))),
         ("suppressOutput", JValue.bool true),
         ("feedback", JValue.str "Sensitive data was detected and removed from output")]
        "modifyOutput" = some v →
      v = JValue.str (jsonDumps (JValue.obj
        [("result", JValue.str "Output sanitized for security")]))) :=
  sanitize_keys_coupled
    [("hook_event_name", JValue.str "PostToolUse"),
     ("tool_response", JValue.str "my password")] _ (by rfl)

/-- C9: a UserPromptSubmit input never produces feedback, modifyOutput or
suppressOutput; its output is either empty or exactly the context and
systemPrompt pair, so those two keys occur together or not at all. -/
theorem userPromptSubmit_output_shape
    (d : List (String × JValue)) (l : List (String × JValue))
    (hev : pyGet d "hook_event_name" (JValue.str "") = JValue.str "UserPromptSubmit")
    (h : main d = some (JValue.obj l)) :
    lookupKey l "feedback" = none ∧
    lookupKey l "modifyOutput" = none ∧
    lookupKey l "suppressOutput" = none ∧
    (l = [] ∨ l =
      [("context", JValue.str "User is asking for help, provide detailed explanations"),
       ("systemPrompt", JValue.str "Be extra helpful and provide examples")]) := by
  simp only [main, hev] at h
  repeat' split at h
  all_goals try (exfalso; simp_all [isStrEq]; done)
  all_goals
    simp only [setKey, Option.some.injEq, JValue.obj.injEq, reduceIte] at h
    subst h
    simp [lookupKey]

/-- Witness for C9 at a concrete input. -/
theorem userPromptSubmit_output_shape_witness :
    lookupKey [("context", JValue.str "User is asking for help, provide detailed explanations"),
               ("systemPrompt", JValue.str "Be extra helpful and provide examples")]
      "feedback" = none ∧
    lookupKey [("context", JValue.str "User is asking for help, provide detailed explanations"),
               ("systemPrompt", JValue.str "Be extra helpful and provide examples")]
      "modifyOutput" = none ∧
    lookupKey [("context", JValue.str "User is asking for help, provide detailed explanations"),
               ("systemPrompt", JValue.str "Be extra helpful and provide examples")]
      "suppressOutput" = none ∧
    (([("context", JValue.str "User is asking for help, provide detailed explanations"),
       ("systemPrompt", JValue.str "Be extra helpful and provide examples")] :
        List (String × JValue)) = [] ∨
     ([("context", JValue.str "User is asking for help, provide detailed explanations"),
       ("systemPrompt", JValue.str "Be extra helpful and provide examples")] :
        List (String × JValue)) =
      [("context", JValue.str "User is asking for help, provide detailed explanations"),
       ("systemPrompt", JValue.str "Be extra helpful and provide examples")]) :=
  userPromptSubmit_output_shape
    [("hook_event_name", JValue.str "UserPromptSubmit"),
     ("prompt", JValue.str "help")] _ (by rfl) (by rfl)

/-- C10: the hook is deterministic and consults nothing beyond the parsed
standard-input document: two invocations in arbitrary ambient process
states (environment, clock, randomness, file system) on the same document
produce the same output. -/
theorem hook_deterministic (e1 e2 : ProcessEnv)
    (d : List (String × JValue)) :
    runHookProcess e1 d = runHookProcess e2 d :=
  rfl

end LlmFeedbackDemo
